import Mathlib

/-!
Verification of the LCCP (Life-Cycle Climate Performance) calculation core
of `lccp_app.py`: the two baseline-emission formulas
(`calc_baseline_direct`, `calc_baseline_indirect`) and the two
correction-factor builders (`build_direct_cf`, `build_indirect_cf`).

The Python code computes over IEEE floats; here the arithmetic is embedded
over the exact rationals `ℚ`, the idealized semantics the specification
reasons in (every constant in the program is a decimal literal, and every
claim is either exact or carries a tolerance that absorbs rounding).
Fallible float division is embedded as an `Option`-valued checked division,
matching Python's `ZeroDivisionError` behaviour.  Python string methods
(`str.strip`, `str.lower`, `str.upper`, `startswith`, `in`) are embedded as
functions on the character list of a `String`.
-/

namespace LCCP

/-! ## Default constants (lines 8-13 of the source) -/

def DEFAULT_LIFETIME_YEARS : ℤ := 15
def DEFAULT_COOLING_HOURS : ℚ := 1000
def DEFAULT_HEATING_HOURS : ℚ := 600
def DEFAULT_GRID_KGCO2_PER_KWH : ℚ := 0.38
def EMBODIED_KGCO2_PER_KG_MATERIAL : ℚ := 5
def DEFAULT_REFRIG_GWP : ℚ := 675.0

/-! ## Data classes -/

/-- The `SystemInputs` dataclass. -/
structure SystemInputs where
  capacity_btuh : ℚ
  seer2 : ℚ
  hspf2 : ℚ
  refrigerant_charge_kg : ℚ
  reclaimed_refrigerant_pct : ℚ
  annual_leak_rate_pct : ℚ
  eol_loss_pct : ℚ
  material_weight_kg : ℚ

/-- The `DirectCFInputs` dataclass. -/
structure DirectCFInputs where
  reclaimed_per_unit_pct : ℚ
  unit_volume_cuft : ℚ
  manufactured_in_usa : Bool
  leak_detectors : Bool
  refrigerant_safety_class : String

/-- The `IndirectCFInputs` dataclass. -/
structure IndirectCFInputs where
  compressor_type : String
  demand_flex : Bool
  connected_thermostat : Bool

/-! ## Python string-method embedding -/

/-- `str.strip` on a character list: drop whitespace at both ends. -/
def stripChars (l : List Char) : List Char :=
  ((l.dropWhile Char.isWhitespace).reverse.dropWhile Char.isWhitespace).reverse

/-- Python `str.strip()`. -/
def pyStrip (s : String) : String := ⟨stripChars s.data⟩

/-- Python `str.lower()` (the program only uses ASCII strings). -/
def pyLower (s : String) : String := ⟨s.data.map Char.toLower⟩

/-- Python `str.upper()` (the program only uses ASCII strings). -/
def pyUpper (s : String) : String := ⟨s.data.map Char.toUpper⟩

/-- Does `p` occur at the front of the second list? -/
def listStarts : List Char → List Char → Bool
  | [], _ => true
  | _ :: _, [] => false
  | p :: ps, c :: cs => p == c && listStarts ps cs

/-- Does `pat` occur as a contiguous sublist? -/
def listHasSub (pat : List Char) : List Char → Bool
  | [] => listStarts pat []
  | c :: rest => listStarts pat (c :: rest) || listHasSub pat rest

/-- Python `s.startswith(pat)`. -/
def pyStartsWith (s pat : String) : Bool := listStarts pat.data s.data

/-- Python `pat in s` (substring containment). -/
def pyContains (s pat : String) : Bool := listHasSub pat.data s.data

/-! ## `calc_baseline_direct` (lines 50-74)

Each local binding of the Python function is a named definition so that
claims about the intermediates can be stated directly. -/

/-- Line 59: `annual_leak_kg = charge * annual_leak_frac`. -/
def annual_leak_kg (s : SystemInputs) : ℚ :=
  s.refrigerant_charge_kg * (s.annual_leak_rate_pct / 100)

/-- Line 60: `total_leak_kg = annual_leak_kg * lifetime_years`. -/
def total_leak_kg (s : SystemInputs) (lifetime_years : ℤ) : ℚ :=
  annual_leak_kg s * lifetime_years

/-- Line 62: `remaining_kg = max(charge - total_leak_kg, 0)`. -/
def remaining_kg (s : SystemInputs) (lifetime_years : ℤ) : ℚ :=
  max (s.refrigerant_charge_kg - total_leak_kg s lifetime_years) 0

/-- Line 63: `eol_leak_kg = remaining_kg * eol_loss_frac`. -/
def eol_leak_kg (s : SystemInputs) (lifetime_years : ℤ) : ℚ :=
  remaining_kg s lifetime_years * (s.eol_loss_pct / 100)

/-- Line 65: `refrigerant_emissions = (total_leak_kg + eol_leak_kg) * refrigerant_gwp`. -/
def refrigerant_emissions (s : SystemInputs) (refrigerant_gwp : ℚ)
    (lifetime_years : ℤ) : ℚ :=
  (total_leak_kg s lifetime_years + eol_leak_kg s lifetime_years) * refrigerant_gwp

/-- Line 69: `reclaimed_credit = charge * reclaimed_frac * refrigerant_gwp * (-0.5)`. -/
def reclaimed_credit (s : SystemInputs) (refrigerant_gwp : ℚ) : ℚ :=
  s.refrigerant_charge_kg * (s.reclaimed_refrigerant_pct / 100) * refrigerant_gwp * (-0.5)

/-- Line 72: `embodied = material_weight_kg * embodied_factor`. -/
def embodied (s : SystemInputs) (embodied_factor : ℚ) : ℚ :=
  s.material_weight_kg * embodied_factor

/-- Lines 50-74: `calc_baseline_direct`. -/
def calc_baseline_direct (s : SystemInputs) (refrigerant_gwp : ℚ)
    (lifetime_years : ℤ) (embodied_factor : ℚ) : ℚ :=
  refrigerant_emissions s refrigerant_gwp lifetime_years
    + reclaimed_credit s refrigerant_gwp
    + embodied s embodied_factor

/-! ## `calc_baseline_indirect` (lines 77-86) -/

/-- Python float division: raises `ZeroDivisionError` on a zero divisor,
embedded as `none`. -/
def pydiv (a b : ℚ) : Option ℚ := if b = 0 then none else some (a / b)

/-- Lines 77-86: `calc_baseline_indirect`.  The two divisions are the only
fallible operations; `none` models an uncaught `ZeroDivisionError`, and the
cooling division is evaluated first, as in the source. -/
def calc_baseline_indirect (s : SystemInputs) (lifetime_years : ℤ)
    (grid_factor : ℚ) : Option ℚ :=
  (pydiv (s.capacity_btuh * DEFAULT_COOLING_HOURS) (s.seer2 * 1000)).bind fun cooling_kwh =>
  (pydiv (s.capacity_btuh * DEFAULT_HEATING_HOURS) (s.hspf2 * 1000)).bind fun heating_kwh =>
  let annual_kwh := cooling_kwh + heating_kwh
  let annual_kgco2 := annual_kwh * grid_factor
  some (annual_kgco2 * lifetime_years)

/-! ## `build_direct_cf` (lines 92-122) -/

/-- Lines 92-122: `build_direct_cf`, the fall-through accumulator
translated let-by-let. -/
def build_direct_cf (cf : DirectCFInputs) : ℚ :=
  let cf_val : ℚ := 1.0
  let cf_val := if cf.reclaimed_per_unit_pct ≥ 50 then cf_val * 0.9
    else if cf.reclaimed_per_unit_pct ≥ 20 then cf_val * 0.95
    else cf_val
  let cf_val := if cf.unit_volume_cuft ≤ 6 then cf_val * 0.97
    else if cf.unit_volume_cuft ≤ 10 then cf_val * 0.99
    else cf_val
  let cf_val := if cf.manufactured_in_usa then cf_val * 0.98 else cf_val
  let cf_val := if cf.leak_detectors then cf_val * 0.95 else cf_val
  let safety := pyUpper (pyStrip cf.refrigerant_safety_class)
  let cf_val := if safety = "2L" then cf_val * 0.995
    else if safety = "3" then cf_val * 1.01
    else cf_val
  cf_val

/-! ## `build_indirect_cf` (lines 125-142) -/

/-- Lines 125-142: `build_indirect_cf`. -/
def build_indirect_cf (cf : IndirectCFInputs) : ℚ :=
  let cf_val : ℚ := 1.0
  let ctype := pyStrip (pyLower cf.compressor_type)
  let cf_val := if pyStartsWith ctype "1" then cf_val * 1.00
    else if pyContains ctype "2" then cf_val * 0.95
    else if pyContains ctype "var" then cf_val * 0.90
    else cf_val
  let cf_val := if cf.demand_flex then cf_val * 0.97 else cf_val
  let cf_val := if cf.connected_thermostat then cf_val * 0.98 else cf_val
  cf_val

/-! ## Per-feature factor views of the correction builders

Each conditional block of the two builders multiplies the accumulator by
one factor; these definitions name those factors so tier-boundary claims
can be stated feature by feature.  The decomposition lemmas below prove
that the builders equal the product of their factors. -/

/-- The reclaimed-per-unit tier of `build_direct_cf` (lines 96-99). -/
def reclaimedFactor (r : ℚ) : ℚ :=
  if r ≥ 50 then 0.9 else if r ≥ 20 then 0.95 else 1

/-- The unit-volume tier of `build_direct_cf` (lines 102-105). -/
def volumeFactor (v : ℚ) : ℚ :=
  if v ≤ 6 then 0.97 else if v ≤ 10 then 0.99 else 1

/-- The manufactured-in-USA flag of `build_direct_cf` (lines 108-109). -/
def usaFactor (b : Bool) : ℚ := if b then 0.98 else 1

/-- The leak-detector flag of `build_direct_cf` (lines 112-113). -/
def leakDetectorFactor (b : Bool) : ℚ := if b then 0.95 else 1

/-- The safety-class block of `build_direct_cf` (lines 116-120). -/
def safetyFactor (s : String) : ℚ :=
  let safety := pyUpper (pyStrip s)
  if safety = "2L" then 0.995 else if safety = "3" then 1.01 else 1

/-- The compressor-type block of `build_indirect_cf` (lines 128-134). -/
def compressorFactor (s : String) : ℚ :=
  let ctype := pyStrip (pyLower s)
  if pyStartsWith ctype "1" then 1 * 1.00
  else if pyContains ctype "2" then 0.95
  else if pyContains ctype "var" then 0.90
  else 1

/-- The demand-flexibility flag of `build_indirect_cf` (lines 136-137). -/
def demandFlexFactor (b : Bool) : ℚ := if b then 0.97 else 1

/-- The connected-thermostat flag of `build_indirect_cf` (lines 139-140). -/
def thermostatFactor (b : Bool) : ℚ := if b then 0.98 else 1

/-! ## Concrete scenarios used by individual claims -/

/-- The spec's end-to-end scenario: capacity=36000, seer2=15.0, hspf2=8.5,
charge=3.0 kg, reclaimed_init=0%, annual_leak=4%, eol_loss=85%,
material_weight=140 kg. -/
def scenarioSystem : SystemInputs :=
  { capacity_btuh := 36000
    seer2 := 15
    hspf2 := 8.5
    refrigerant_charge_kg := 3
    reclaimed_refrigerant_pct := 0
    annual_leak_rate_pct := 4
    eol_loss_pct := 85
    material_weight_kg := 140 }

/-- A system whose only nonzero contribution is the reclaimed credit. -/
def creditOnlySystem : SystemInputs :=
  { capacity_btuh := 36000
    seer2 := 15
    hspf2 := 8.5
    refrigerant_charge_kg := 1
    reclaimed_refrigerant_pct := 100
    annual_leak_rate_pct := 0
    eol_loss_pct := 0
    material_weight_kg := 0 }

/-- The `DirectCFInputs` that trigger every discount tier at once. -/
def allDiscountsCF : DirectCFInputs :=
  { reclaimed_per_unit_pct := 50
    unit_volume_cuft := 6
    manufactured_in_usa := true
    leak_detectors := true
    refrigerant_safety_class := "2L" }

/-- The non-adjusting `DirectCFInputs` of the spec's identity test. -/
def neutralDirectCF : DirectCFInputs :=
  { reclaimed_per_unit_pct := 0
    unit_volume_cuft := 50
    manufactured_in_usa := false
    leak_detectors := false
    refrigerant_safety_class := "1" }

/-- The non-adjusting `IndirectCFInputs` of the spec's identity test. -/
def neutralIndirectCF : IndirectCFInputs :=
  { compressor_type := "1-stg"
    demand_flex := false
    connected_thermostat := false }

/-! ## Shared lemmas -/

lemma build_direct_cf_factors (cf : DirectCFInputs) :
    build_direct_cf cf =
      reclaimedFactor cf.reclaimed_per_unit_pct
        * volumeFactor cf.unit_volume_cuft
        * usaFactor cf.manufactured_in_usa
        * leakDetectorFactor cf.leak_detectors
        * safetyFactor cf.refrigerant_safety_class := by
  unfold build_direct_cf reclaimedFactor volumeFactor usaFactor
    leakDetectorFactor safetyFactor
  split_ifs <;> simp_all <;> ring

lemma build_indirect_cf_factors (cf : IndirectCFInputs) :
    build_indirect_cf cf =
      compressorFactor cf.compressor_type
        * demandFlexFactor cf.demand_flex
        * thermostatFactor cf.connected_thermostat := by
  unfold build_indirect_cf compressorFactor demandFlexFactor thermostatFactor
  split_ifs <;> simp_all <;> ring

lemma reclaimedFactor_cases (r : ℚ) :
    reclaimedFactor r = 0.9 ∨ reclaimedFactor r = 0.95 ∨ reclaimedFactor r = 1 := by
  unfold reclaimedFactor
  split_ifs <;> simp

lemma volumeFactor_cases (v : ℚ) :
    volumeFactor v = 0.97 ∨ volumeFactor v = 0.99 ∨ volumeFactor v = 1 := by
  unfold volumeFactor
  split_ifs <;> simp

lemma usaFactor_cases (b : Bool) : usaFactor b = 0.98 ∨ usaFactor b = 1 := by
  cases b <;> simp [usaFactor]

lemma leakDetectorFactor_cases (b : Bool) :
    leakDetectorFactor b = 0.95 ∨ leakDetectorFactor b = 1 := by
  cases b <;> simp [leakDetectorFactor]

lemma safetyFactor_cases (s : String) :
    safetyFactor s = 0.995 ∨ safetyFactor s = 1.01 ∨ safetyFactor s = 1 := by
  unfold safetyFactor
  dsimp only
  split_ifs <;> simp_all

/-! ## Claims -/

/-- C9: at the stated non-adjusting inputs each correction-factor builder
returns exactly 1.0: `build_direct_cf` on (reclaimed=0, volume=50,
usa=false, detectors=false, safety="1") and `build_indirect_cf` on
("1-stg", false, false) both return 1. -/
theorem c9_neutral_inputs_give_identity :
    build_direct_cf neutralDirectCF = 1 ∧ build_indirect_cf neutralIndirectCF = 1 := by
  constructor
  · rw [show neutralDirectCF =
        ⟨0, 50, false, false, "1"⟩ from rfl, build_direct_cf_factors]
    norm_num [reclaimedFactor, volumeFactor, usaFactor, leakDetectorFactor,
      safetyFactor, show pyUpper (pyStrip "1") = "1" from rfl,
      show ¬ (("1" : String) = "2L") from by decide,
      show ¬ (("1" : String) = "3") from by decide]
  · rw [show neutralIndirectCF = ⟨"1-stg", false, false⟩ from rfl,
      build_indirect_cf_factors]
    norm_num [compressorFactor, demandFlexFactor, thermostatFactor,
      show pyStartsWith (pyStrip (pyLower "1-stg")) "1" = true from rfl]

/-- C10: with `refrigerant_charge_kg = 0` every refrigerant term of
`calc_baseline_direct` vanishes and the result is exactly
`material_weight_kg * embodied_factor`, for all other field values. -/
theorem c10_zero_charge_leaves_embodied (s : SystemInputs) (gwp : ℚ)
    (L : ℤ) (ef : ℚ) (h : s.refrigerant_charge_kg = 0) :
    calc_baseline_direct s gwp L ef = s.material_weight_kg * ef := by
  unfold calc_baseline_direct refrigerant_emissions reclaimed_credit embodied
    eol_leak_kg remaining_kg total_leak_kg annual_leak_kg
  rw [h]
  simp

/-- Witness for C10 at a concrete zero-charge system. -/
theorem c10_zero_charge_leaves_embodied_witness :
    calc_baseline_direct
      { capacity_btuh := 36000, seer2 := 15, hspf2 := 8.5,
        refrigerant_charge_kg := 0, reclaimed_refrigerant_pct := 40,
        annual_leak_rate_pct := 7, eol_loss_pct := 85,
        material_weight_kg := 140 } 675 15 5 = 140 * 5 :=
  c10_zero_charge_leaves_embodied _ 675 15 5 rfl

/-- C1: for every `SystemInputs` and scalars, `calc_baseline_direct`
returns exactly `refrigerant_emissions + reclaimed_credit + embodied`
with `total_leak_kg = charge*(leak_pct/100)*lifetime`,
`remaining_kg = max(charge - total_leak_kg, 0)`,
`eol_leak_kg = remaining_kg*(eol_pct/100)`,
`refrigerant_emissions = (total_leak_kg + eol_leak_kg)*gwp`,
`reclaimed_credit = charge*(reclaimed_pct/100)*gwp*(-0.5)`,
`embodied = material_weight*embodied_factor`; the sum is not clamped and
is negative at a concrete input. -/
theorem c1_baseline_direct_formula :
    (∀ (s : SystemInputs) (gwp : ℚ) (L : ℤ) (ef : ℚ),
      calc_baseline_direct s gwp L ef =
        (s.refrigerant_charge_kg * (s.annual_leak_rate_pct / 100) * L
            + max (s.refrigerant_charge_kg
                - s.refrigerant_charge_kg * (s.annual_leak_rate_pct / 100) * L) 0
              * (s.eol_loss_pct / 100)) * gwp
          + s.refrigerant_charge_kg * (s.reclaimed_refrigerant_pct / 100) * gwp * (-0.5)
          + s.material_weight_kg * ef)
    ∧ calc_baseline_direct creditOnlySystem 100 15 0 < 0 := by
  constructor
  · intro s gwp L ef
    unfold calc_baseline_direct refrigerant_emissions reclaimed_credit embodied
      eol_leak_kg remaining_kg total_leak_kg annual_leak_kg
    ring
  · norm_num [calc_baseline_direct, refrigerant_emissions, reclaimed_credit,
      embodied, eol_leak_kg, remaining_kg, total_leak_kg, annual_leak_kg,
      creditOnlySystem]

/-- C2 counterexample: at the spec's end-to-end scenario the code returns
exactly 478800/17 ≈ 28164.71 kgCO2e, which is not within the claimed
tolerance of ±0.1 of the claimed reference value 28184.7. -/
theorem c2_counterexample_reference_value :
    calc_baseline_indirect scenarioSystem 15 0.38 = some (478800 / 17)
      ∧ ¬ |(478800 : ℚ) / 17 - 28184.7| ≤ 0.1 := by
  constructor
  · norm_num [calc_baseline_indirect, pydiv, scenarioSystem,
      DEFAULT_COOLING_HOURS, DEFAULT_HEATING_HOURS]
  · rw [abs_le, not_and_or]
    left
    norm_num

/-- C2 (amended): for positive `seer2` and `hspf2`, `calc_baseline_indirect`
returns `((capacity*1000)/(seer2*1000) + (capacity*600)/(hspf2*1000)) *
grid_factor * lifetime_years` with the fixed constants 1000 cooling hours
and 600 heating hours; at the scenario capacity=36000, seer2=15, hspf2=8.5,
lifetime=15, grid=0.38 the result is 478800/17, equal to 28164.7 kgCO2e
within ±0.1 (not 28184.7 as the claim stated). -/
theorem c2_baseline_indirect_formula :
    (∀ (s : SystemInputs) (L : ℤ) (g : ℚ), 0 < s.seer2 → 0 < s.hspf2 →
      calc_baseline_indirect s L g =
        some ((s.capacity_btuh * 1000 / (s.seer2 * 1000)
          + s.capacity_btuh * 600 / (s.hspf2 * 1000)) * g * L))
    ∧ calc_baseline_indirect scenarioSystem 15 0.38 = some (478800 / 17)
    ∧ |(478800 : ℚ) / 17 - 28164.7| ≤ 0.1 := by
  refine ⟨?_, ?_, ?_⟩
  · intro s L g hs hh
    have h1 : s.seer2 * 1000 ≠ 0 := mul_ne_zero (ne_of_gt hs) (by norm_num)
    have h2 : s.hspf2 * 1000 ≠ 0 := mul_ne_zero (ne_of_gt hh) (by norm_num)
    simp only [calc_baseline_indirect, pydiv, DEFAULT_COOLING_HOURS,
      DEFAULT_HEATING_HOURS, if_neg h1, if_neg h2, Option.some_bind]
  · norm_num [calc_baseline_indirect, pydiv, scenarioSystem,
      DEFAULT_COOLING_HOURS, DEFAULT_HEATING_HOURS]
  · rw [abs_le]
    constructor <;> norm_num

/-- Witness for C2 (amended) at the spec scenario, seer2 = 15 > 0 and
hspf2 = 8.5 > 0. -/
theorem c2_baseline_indirect_formula_witness :
    calc_baseline_indirect scenarioSystem 15 0.38 =
      some ((scenarioSystem.capacity_btuh * 1000 / (scenarioSystem.seer2 * 1000)
        + scenarioSystem.capacity_btuh * 600 / (scenarioSystem.hspf2 * 1000))
          * 0.38 * 15) :=
  c2_baseline_indirect_formula.1 scenarioSystem 15 0.38
    (by norm_num [scenarioSystem]) (by norm_num [scenarioSystem])

/-- C3 counterexample: with every discount active (reclaimed=50, volume=6,
USA=true, detectors=true, safety="2L") `build_direct_cf` returns
161739837/200000000 ≈ 0.8087, which is below the claimed lower end 0.85. -/
theorem c3_counterexample_below_lower_bound :
    build_direct_cf allDiscountsCF = 161739837 / 200000000
      ∧ ¬ (0.85 ≤ build_direct_cf allDiscountsCF) := by
  have h : build_direct_cf allDiscountsCF = 161739837 / 200000000 := by
    rw [show allDiscountsCF = ⟨50, 6, true, true, "2L"⟩ from rfl,
      build_direct_cf_factors]
    norm_num [reclaimedFactor, volumeFactor, usaFactor, leakDetectorFactor,
      safetyFactor, show pyUpper (pyStrip "2L") = "2L" from rfl]
  rw [h]
  norm_num

/-- C3 (amended): for every `DirectCFInputs` record the value returned by
`build_direct_cf` lies within [161739837/200000000, 101/100], i.e.
approximately 0.8087 to 1.01 (not 0.85 to 1.02 as the claim stated; both
endpoints are attained). -/
theorem c3_direct_cf_range (cf : DirectCFInputs) :
    161739837 / 200000000 ≤ build_direct_cf cf
      ∧ build_direct_cf cf ≤ 101 / 100 := by
  rw [build_direct_cf_factors]
  rcases reclaimedFactor_cases cf.reclaimed_per_unit_pct with h1 | h1 | h1 <;>
    rcases volumeFactor_cases cf.unit_volume_cuft with h2 | h2 | h2 <;>
    rcases usaFactor_cases cf.manufactured_in_usa with h3 | h3 <;>
    rcases leakDetectorFactor_cases cf.leak_detectors with h4 | h4 <;>
    rcases safetyFactor_cases cf.refrigerant_safety_class with h5 | h5 | h5 <;>
    rw [h1, h2, h3, h4, h5] <;> constructor <;> norm_num

/-- C4: in `build_direct_cf` the tier thresholds are inclusive and the
first matching branch wins: reclaimed exactly 50 gives the ×0.90 tier and
not ×0.95, values in [20,50) give ×0.95, values below 20 give no
adjustment; volume exactly 6 gives ×0.97 and not ×0.99, values in (6,10]
give ×0.99, larger volumes no adjustment — where `build_direct_cf` is the
product of its per-feature factors. -/
theorem c4_tier_boundaries :
    (∀ cf : DirectCFInputs, build_direct_cf cf =
      reclaimedFactor cf.reclaimed_per_unit_pct
        * volumeFactor cf.unit_volume_cuft
        * usaFactor cf.manufactured_in_usa
        * leakDetectorFactor cf.leak_detectors
        * safetyFactor cf.refrigerant_safety_class)
    ∧ reclaimedFactor 50 = 0.9
    ∧ (∀ r : ℚ, 20 ≤ r → r < 50 → reclaimedFactor r = 0.95)
    ∧ (∀ r : ℚ, r < 20 → reclaimedFactor r = 1)
    ∧ volumeFactor 6 = 0.97
    ∧ (∀ v : ℚ, 6 < v → v ≤ 10 → volumeFactor v = 0.99)
    ∧ (∀ v : ℚ, 10 < v → volumeFactor v = 1) := by
  refine ⟨build_direct_cf_factors, by norm_num [reclaimedFactor], ?_, ?_,
    by norm_num [volumeFactor], ?_, ?_⟩
  · intro r h1 h2
    unfold reclaimedFactor
    rw [if_neg (by exact not_le.mpr h2), if_pos h1]
  · intro r h
    unfold reclaimedFactor
    rw [if_neg (by exact not_le.mpr (h.trans (by norm_num))),
      if_neg (by exact not_le.mpr h)]
  · intro v h1 h2
    unfold volumeFactor
    rw [if_neg (by exact not_le.mpr h1), if_pos h2]
  · intro v h
    unfold volumeFactor
    rw [if_neg (by exact not_le.mpr ((by norm_num : (6:ℚ) < 10).trans h)),
      if_neg (by exact not_le.mpr h)]

/-- Witness for C4 at concrete tier inputs: 30 is in the ×0.95 reclaimed
tier, 10 is below the 20 threshold, volume 8 is in the ×0.99 tier, and
volume 12 gets no adjustment. -/
theorem c4_tier_boundaries_witness :
    reclaimedFactor 30 = 0.95 ∧ reclaimedFactor 10 = 1
      ∧ volumeFactor 8 = 0.99 ∧ volumeFactor 12 = 1 :=
  ⟨c4_tier_boundaries.2.2.1 30 (by norm_num) (by norm_num),
   c4_tier_boundaries.2.2.2.1 10 (by norm_num),
   c4_tier_boundaries.2.2.2.2.2.1 8 (by norm_num) (by norm_num),
   c4_tier_boundaries.2.2.2.2.2.2 12 (by norm_num)⟩

/-- C5: `build_indirect_cf` lowercases and trims the compressor-type
string and matches first-match-wins: starts with "1" leaves the multiplier
unchanged (×1.00); else containing "2" applies ×0.95; else containing
"var" applies ×0.90; any other string passes through unchanged — and an
unrecognized safety-class string in `build_direct_cf` likewise applies no
adjustment (the functions are total, so no input raises an error). -/
theorem c5_compressor_matching :
    (∀ cf : IndirectCFInputs, build_indirect_cf cf =
      compressorFactor cf.compressor_type
        * demandFlexFactor cf.demand_flex
        * thermostatFactor cf.connected_thermostat)
    ∧ (∀ t : String, pyStartsWith (pyStrip (pyLower t)) "1" = true →
        compressorFactor t = 1)
    ∧ (∀ t : String, pyStartsWith (pyStrip (pyLower t)) "1" = false →
        pyContains (pyStrip (pyLower t)) "2" = true → compressorFactor t = 0.95)
    ∧ (∀ t : String, pyStartsWith (pyStrip (pyLower t)) "1" = false →
        pyContains (pyStrip (pyLower t)) "2" = false →
        pyContains (pyStrip (pyLower t)) "var" = true → compressorFactor t = 0.9)
    ∧ (∀ t : String, pyStartsWith (pyStrip (pyLower t)) "1" = false →
        pyContains (pyStrip (pyLower t)) "2" = false →
        pyContains (pyStrip (pyLower t)) "var" = false → compressorFactor t = 1)
    ∧ (∀ s : String, pyUpper (pyStrip s) ≠ "2L" → pyUpper (pyStrip s) ≠ "3" →
        safetyFactor s = 1) := by
  refine ⟨build_indirect_cf_factors, ?_, ?_, ?_, ?_, ?_⟩
  · intro t h
    norm_num [compressorFactor, h]
  · intro t h1 h2
    norm_num [compressorFactor, h1, h2]
  · intro t h1 h2 h3
    norm_num [compressorFactor, h1, h2, h3]
  · intro t h1 h2 h3
    norm_num [compressorFactor, h1, h2, h3]
  · intro s h1 h2
    norm_num [safetyFactor, h1, h2]

/-- Witness for C5 at the concrete strings "2-stg", "variable", "scroll"
and safety class "A2" — each discharges the normalized string-matching
hypotheses by evaluation. -/
theorem c5_compressor_matching_witness :
    compressorFactor "2-stg" = 0.95 ∧ compressorFactor "variable" = 0.9
      ∧ compressorFactor "scroll" = 1 ∧ safetyFactor "A2" = 1 :=
  ⟨c5_compressor_matching.2.2.1 "2-stg" rfl rfl,
   c5_compressor_matching.2.2.2.1 "variable" rfl rfl rfl,
   c5_compressor_matching.2.2.2.2.1 "scroll" rfl rfl rfl,
   c5_compressor_matching.2.2.2.2.2 "A2" (by decide) (by decide)⟩

/-- C6: `calc_baseline_indirect` succeeds for every input with non-zero
`seer2` and `hspf2` (the division-by-zero branch is unreachable), and when
`seer2 = 0` or `hspf2 = 0` the division-by-zero branch is reached and the
computation fails; the other three core functions are total by
construction (they are plain functions into ℚ). -/
theorem c6_totality_and_division_by_zero :
    (∀ (s : SystemInputs) (L : ℤ) (g : ℚ), s.seer2 ≠ 0 → s.hspf2 ≠ 0 →
      (calc_baseline_indirect s L g).isSome = true)
    ∧ (∀ (s : SystemInputs) (L : ℤ) (g : ℚ), s.seer2 = 0 ∨ s.hspf2 = 0 →
      calc_baseline_indirect s L g = none) := by
  constructor
  · intro s L g hs hh
    have h1 : s.seer2 * 1000 ≠ 0 := mul_ne_zero hs (by norm_num)
    have h2 : s.hspf2 * 1000 ≠ 0 := mul_ne_zero hh (by norm_num)
    simp [calc_baseline_indirect, pydiv, h1, h2]
  · intro s L g h
    rcases h with h | h
    · simp [calc_baseline_indirect, pydiv, h]
    · by_cases hs : s.seer2 * 1000 = 0 <;>
        simp [calc_baseline_indirect, pydiv, hs, h]

/-- Witness for C6: the scenario system (seer2 = 15, hspf2 = 8.5) succeeds,
and the same system with seer2 = 0 reaches the failing division. -/
theorem c6_totality_and_division_by_zero_witness :
    (calc_baseline_indirect scenarioSystem 15 0.38).isSome = true
      ∧ calc_baseline_indirect { scenarioSystem with seer2 := 0 } 15 0.38 = none :=
  ⟨c6_totality_and_division_by_zero.1 scenarioSystem 15 0.38
      (by norm_num [scenarioSystem]) (by norm_num [scenarioSystem]),
   c6_totality_and_division_by_zero.2 _ 15 0.38 (Or.inl rfl)⟩

/-- C7: for non-negative charge, leak percentage, end-of-life percentage
and lifetime, the intermediate `remaining_kg` of `calc_baseline_direct` is
always ≥ 0, and a zero annual leak rate gives `total_leak_kg = 0` and
`eol_leak_kg = charge * eol_loss_pct/100`. -/
theorem c7_remaining_nonneg_and_zero_leak (s : SystemInputs) (L : ℤ)
    (hc : 0 ≤ s.refrigerant_charge_kg) (hl : 0 ≤ s.annual_leak_rate_pct)
    (he : 0 ≤ s.eol_loss_pct) (hL : 0 ≤ L) :
    0 ≤ remaining_kg s L ∧
      (s.annual_leak_rate_pct = 0 →
        total_leak_kg s L = 0 ∧
          eol_leak_kg s L = s.refrigerant_charge_kg * (s.eol_loss_pct / 100)) := by
  refine ⟨le_max_right _ _, fun h0 => ?_⟩
  have ht : total_leak_kg s L = 0 := by
    unfold total_leak_kg annual_leak_kg
    rw [h0]
    ring
  refine ⟨ht, ?_⟩
  unfold eol_leak_kg remaining_kg
  rw [ht, sub_zero, max_eq_left hc]

/-- Witness for C7 at a concrete zero-leak system (charge 1 kg,
reclaimed 100%, leak 0%, end-of-life 0%, lifetime 15). -/
theorem c7_remaining_nonneg_and_zero_leak_witness :
    0 ≤ remaining_kg creditOnlySystem 15 ∧
      (creditOnlySystem.annual_leak_rate_pct = 0 →
        total_leak_kg creditOnlySystem 15 = 0 ∧
          eol_leak_kg creditOnlySystem 15 =
            creditOnlySystem.refrigerant_charge_kg
              * (creditOnlySystem.eol_loss_pct / 100)) :=
  c7_remaining_nonneg_and_zero_leak creditOnlySystem 15
    (by norm_num [creditOnlySystem]) (by norm_num [creditOnlySystem])
    (by norm_num [creditOnlySystem]) (by norm_num)

/-- C8: holding the system and lifetime fixed, whenever
`total_leak_kg + eol_leak_kg > 0` the `refrigerant_emissions` term of
`calc_baseline_direct` is strictly increasing in the GWP. -/
theorem c8_emissions_strict_mono_in_gwp (s : SystemInputs) (L : ℤ)
    (gwp1 gwp2 : ℚ) (hpos : 0 < total_leak_kg s L + eol_leak_kg s L)
    (hlt : gwp1 < gwp2) :
    refrigerant_emissions s gwp1 L < refrigerant_emissions s gwp2 L := by
  unfold refrigerant_emissions
  exact mul_lt_mul_of_pos_left hlt hpos

/-- Witness for C8 at a concrete leaking system (charge 3 kg, 4% annual
leak, lifetime 15, so the lifetime leak total 1.8 kg is positive) and
GWP 675 < 700. -/
theorem c8_emissions_strict_mono_in_gwp_witness :
    refrigerant_emissions { scenarioSystem with eol_loss_pct := 0 } 675 15
      < refrigerant_emissions { scenarioSystem with eol_loss_pct := 0 } 700 15 :=
  c8_emissions_strict_mono_in_gwp _ 15 675 700
    (by norm_num [total_leak_kg, annual_leak_kg, eol_leak_kg, remaining_kg,
      scenarioSystem])
    (by norm_num)

end LCCP
